import Mathlib

/-!
Verification of "The Research Archive" pipeline.

A shallow embedding of the repository's core: the four stage functions of
`src/services/geminiService.ts` (`planTopic`, `fetchMockSearch`, `mapContent`,
`writeReport`) and the orchestrating `handleResearch` handler plus the two
reset buttons of `src/App.tsx`.

Modelling conventions:
  * The external Gemini client (`ai.models.generateContent`) is an oracle
    parameter `gen : GenRequest → Except String GenResponse`; a thrown
    rejection is `.error`, a resolved response is `.ok`.  `response.text`
    is `Option String` (TypeScript `string | undefined`).
  * JavaScript falsiness of strings (`s || d`) is `jsOr`.
  * `JSON.parse` is modelled by an executable fuel-based parser `jsonParse`
    producing a `Json` value; the unchecked TypeScript cast
    `JSON.parse(text) as ResearchReport` performs no field validation, so
    `writeReport` returns the parsed `Json` value itself.
  * React state (`apiKey`, `query`, `step`, `refinedTopic`, `report`,
    `error`) is an `AppState` record; `handleResearch` returns the final
    state together with the ordered list of `setStep` calls it performed
    (the trace of pipeline states the observers see).
  * `Promise.all(documents.map f)` resolves with results collected by index
    and rejects as soon as any member rejects; its sequential shallow
    embedding is `mapExcept`.
-/

namespace ResearchArchive

/-- JavaScript `a || b` on strings: the empty string is falsy. -/
def jsOr (a b : String) : String :=
  if a = "" then b else a

/-- JavaScript whitespace as stripped by `String.prototype.trim`
(the ASCII whitespace characters and no-break space; the exotic Unicode
space code points do not occur in this development). -/
def jsWhitespace (c : Char) : Bool :=
  c == ' ' || c == Char.ofNat 9 || c == Char.ofNat 10 || c == Char.ofNat 11 ||
  c == Char.ofNat 12 || c == Char.ofNat 13 || c == Char.ofNat 160

/-- JavaScript `s.trim()`: strip leading and trailing whitespace. -/
def jsTrim (s : String) : String :=
  String.mk (((s.data.dropWhile jsWhitespace).reverse.dropWhile jsWhitespace).reverse)

/-- JavaScript truthiness of an `Option String` field (`undefined`/`null`/`""` are falsy). -/
def optStrTruthy : Option String → Bool
  | none => false
  | some s => if s = "" then false else true

/-! ### Data model (src/types.ts) -/

/-- `SearchResult` from src/types.ts. -/
structure SearchResult where
  source : String
  content : String
deriving DecidableEq, Repr

/-- `AgentStep` from src/types.ts. -/
inductive AgentStep where
  | idle
  | planning
  | searching
  | mapping
  | writing
  | complete
  | error
deriving DecidableEq, Repr

/-- `ResearchReport` from src/types.ts (the declared static shape; at runtime
the unchecked cast in `writeReport` does not enforce it). -/
structure ResearchReport where
  title : String
  summary : String
  key_points : List String
  verdict : String
deriving DecidableEq, Repr

/-! ### JSON values and `JSON.parse` -/

/-- Runtime JSON values, the possible results of `JSON.parse`.
Numbers keep their source lexeme. -/
inductive Json where
  | null
  | bool (b : Bool)
  | num (lexeme : String)
  | str (s : String)
  | arr (elems : List Json)
  | obj (fields : List (String × Json))

/-- JavaScript truthiness of a JSON number lexeme: the value is falsy
iff it is zero, i.e. the mantissa has no nonzero digit. -/
def numLexTruthy (lx : String) : Bool :=
  (lx.data.takeWhile (fun c => !(c == 'e' || c == 'E'))).any
    (fun c => c.isDigit && !(c == '0'))

/-- JavaScript truthiness of a parsed JSON value. -/
def Json.truthy : Json → Bool
  | .null => false
  | .bool b => b
  | .num lx => numLexTruthy lx
  | .str s => if s = "" then false else true
  | .arr _ => true
  | .obj _ => true

/-- JavaScript property access `o[k]` on a parsed JSON object: with duplicate
keys the later entry wins; access on a non-object yields `undefined`. -/
def Json.getField : Json → String → Option Json
  | .obj fields, k => fields.reverse.lookup k
  | _, _ => none

def quoteC : Char := Char.ofNat 34

def bslashC : Char := Char.ofNat 92

def lbraceC : Char := Char.ofNat 123

def rbraceC : Char := Char.ofNat 125

/-- JSON insignificant whitespace. -/
def jsonWs (c : Char) : Bool :=
  c == ' ' || c == Char.ofNat 9 || c == Char.ofNat 10 || c == Char.ofNat 13

def skipWs (cs : List Char) : List Char :=
  cs.dropWhile jsonWs

/-- Value of a hexadecimal digit. -/
def hexVal (c : Char) : Option Nat :=
  let n := c.toNat
  if 48 ≤ n ∧ n ≤ 57 then some (n - 48)
  else if 97 ≤ n ∧ n ≤ 102 then some (n - 87)
  else if 65 ≤ n ∧ n ≤ 70 then some (n - 55)
  else none

/-- Body of a JSON string literal after the opening quote: accumulates
characters (decoding escapes) until the closing quote. -/
def parseStrChars : Nat → List Char → List Char → Option (String × List Char)
  | 0, _, _ => none
  | fuel + 1, acc, cs =>
    match cs with
    | [] => none
    | c :: rest =>
      if c = quoteC then some (String.mk acc.reverse, rest)
      else if c = bslashC then
        match rest with
        | [] => none
        | e :: rest2 =>
          if e = quoteC then parseStrChars fuel (quoteC :: acc) rest2
          else if e = bslashC then parseStrChars fuel (bslashC :: acc) rest2
          else if e = '/' then parseStrChars fuel ('/' :: acc) rest2
          else if e = 'b' then parseStrChars fuel (Char.ofNat 8 :: acc) rest2
          else if e = 'f' then parseStrChars fuel (Char.ofNat 12 :: acc) rest2
          else if e = 'n' then parseStrChars fuel (Char.ofNat 10 :: acc) rest2
          else if e = 'r' then parseStrChars fuel (Char.ofNat 13 :: acc) rest2
          else if e = 't' then parseStrChars fuel (Char.ofNat 9 :: acc) rest2
          else if e = 'u' then
            match rest2 with
            | h1 :: h2 :: h3 :: h4 :: rest3 =>
              match hexVal h1, hexVal h2, hexVal h3, hexVal h4 with
              | some a, some b, some c2, some d =>
                parseStrChars fuel (Char.ofNat (((a * 16 + b) * 16 + c2) * 16 + d) :: acc) rest3
              | _, _, _, _ => none
            | _ => none
          else none
      else parseStrChars fuel (c :: acc) rest

/-- Optional fraction part of a JSON number. -/
def parseFracPart (cs : List Char) : Option (List Char × List Char) :=
  match cs with
  | '.' :: rest =>
    let ds := rest.takeWhile Char.isDigit
    if ds = [] then none else some ('.' :: ds, rest.dropWhile Char.isDigit)
  | _ => some ([], cs)

/-- Optional exponent part of a JSON number. -/
def parseExpPart (cs : List Char) : Option (List Char × List Char) :=
  match cs with
  | [] => some ([], cs)
  | c :: rest =>
    if c = 'e' ∨ c = 'E' then
      match rest with
      | [] => none
      | s :: rest2 =>
        if s = '+' ∨ s = '-' then
          let ds := rest2.takeWhile Char.isDigit
          if ds = [] then none else some (c :: s :: ds, rest2.dropWhile Char.isDigit)
        else
          let ds := rest.takeWhile Char.isDigit
          if ds = [] then none else some (c :: ds, rest.dropWhile Char.isDigit)
    else some ([], cs)

/-- Lexes a JSON number, keeping the lexeme. -/
def parseNumLex (cs : List Char) : Option (String × List Char) :=
  let signAndRest : List Char × List Char :=
    match cs with
    | c :: r => if c = '-' then ([c], r) else ([], cs)
    | [] => ([], cs)
  let ds := signAndRest.2.takeWhile Char.isDigit
  let cs2 := signAndRest.2.dropWhile Char.isDigit
  if ds = [] then none
  else
    match parseFracPart cs2 with
    | none => none
    | some (fp, cs3) =>
      match parseExpPart cs3 with
      | none => none
      | some (ep, cs4) => some (String.mk (signAndRest.1 ++ ds ++ fp ++ ep), cs4)

mutual

/-- Recursive-descent JSON value parser (fuel-indexed). -/
def parseValue : Nat → List Char → Option (Json × List Char)
  | 0, _ => none
  | fuel + 1, cs =>
    match skipWs cs with
    | [] => none
    | c :: rest =>
      if c = quoteC then
        (parseStrChars (rest.length + 1) [] rest).map (fun p => (Json.str p.1, p.2))
      else if c = '[' then parseArrStart fuel (skipWs rest)
      else if c = lbraceC then parseObjStart fuel (skipWs rest)
      else if c = 'n' then
        match rest with
        | 'u' :: 'l' :: 'l' :: r => some (Json.null, r)
        | _ => none
      else if c = 't' then
        match rest with
        | 'r' :: 'u' :: 'e' :: r => some (Json.bool true, r)
        | _ => none
      else if c = 'f' then
        match rest with
        | 'a' :: 'l' :: 's' :: 'e' :: r => some (Json.bool false, r)
        | _ => none
      else if c = '-' ∨ c.isDigit then
        (parseNumLex (c :: rest)).map (fun p => (Json.num p.1, p.2))
      else none

/-- Array body after the opening bracket (whitespace already skipped). -/
def parseArrStart : Nat → List Char → Option (Json × List Char)
  | 0, _ => none
  | fuel + 1, cs =>
    match cs with
    | [] => none
    | c :: rest =>
      if c = ']' then some (Json.arr [], rest)
      else parseArrLoop fuel cs []

/-- Comma-separated array elements. -/
def parseArrLoop : Nat → List Char → List Json → Option (Json × List Char)
  | 0, _, _ => none
  | fuel + 1, cs, acc =>
    match parseValue fuel cs with
    | none => none
    | some (j, rest) =>
      match skipWs rest with
      | [] => none
      | c :: rest2 =>
        if c = ',' then parseArrLoop fuel rest2 (j :: acc)
        else if c = ']' then some (Json.arr (j :: acc).reverse, rest2)
        else none

/-- Object body after the opening brace (whitespace already skipped). -/
def parseObjStart : Nat → List Char → Option (Json × List Char)
  | 0, _ => none
  | fuel + 1, cs =>
    match cs with
    | [] => none
    | c :: rest =>
      if c = rbraceC then some (Json.obj [], rest)
      else parseObjLoop fuel cs []

/-- Comma-separated `"key": value` object members. -/
def parseObjLoop : Nat → List Char → List (String × Json) → Option (Json × List Char)
  | 0, _, _ => none
  | fuel + 1, cs, acc =>
    match skipWs cs with
    | [] => none
    | c :: rest =>
      if c = quoteC then
        match parseStrChars (rest.length + 1) [] rest with
        | none => none
        | some (k, rest2) =>
          match skipWs rest2 with
          | [] => none
          | c2 :: rest3 =>
            if c2 = ':' then
              match parseValue fuel rest3 with
              | none => none
              | some (v, rest4) =>
                match skipWs rest4 with
                | [] => none
                | c3 :: rest5 =>
                  if c3 = ',' then parseObjLoop fuel rest5 ((k, v) :: acc)
                  else if c3 = rbraceC then some (Json.obj ((k, v) :: acc).reverse, rest5)
                  else none
            else none
      else none

end

/-- `JSON.parse`: parse one value, then require only trailing whitespace.
The fuel bound dominates the recursion depth reachable on the input. -/
def jsonParse (s : String) : Except String Json :=
  match parseValue (4 * s.length + 4) s.data with
  | some (j, rest) =>
    if skipWs rest = [] then .ok j
    else .error "Unexpected non-whitespace character after JSON data"
  | none => .error "Unexpected token in JSON"

/-- Decodes a list of JSON values that must all be strings. -/
def decodeStrAll : List Json → Option (List String)
  | [] => some []
  | j :: js =>
    match j with
    | .str s => (decodeStrAll js).map (fun r => s :: r)
    | _ => none

/-- Validation of the `ResearchReport` record shape as the spec words it
(title, summary, key_points as 2–5 strings, verdict, all four required).
This is the refinement comparison point: the source performs no such
validation after `JSON.parse`. -/
def reportOfJson (j : Json) : Option ResearchReport :=
  match j.getField "title", j.getField "summary",
        j.getField "key_points", j.getField "verdict" with
  | some (.str t), some (.str s), some (.arr kps), some (.str v) =>
    match decodeStrAll kps with
    | some kp => if 2 ≤ kp.length ∧ kp.length ≤ 5 then some ⟨t, s, kp, v⟩ else none
    | none => none
  | _, _, _, _ => none

/-! ### External generation client boundary (src/services/geminiService.ts) -/

/-- The model name constant `MODEL_NAME`. -/
def MODEL_NAME : String := "gemini-flash-lite-latest"

/-- A request to `ai.models.generateContent`: the model, the prompt
`contents`, and (for `writeReport` only) the `required` list of the
structured-output `responseSchema` passed in `config`. -/
structure GenRequest where
  model : String
  contents : String
  responseSchemaRequired : Option (List String)
deriving DecidableEq, Repr

/-- A resolved `generateContent` response; `text` is `string | undefined`. -/
structure GenResponse where
  text : Option String
deriving DecidableEq, Repr

/-- The generation oracle: `.ok` a resolved response, `.error` a rejection
carrying the underlying cause's message. -/
def GenOracle : Type := GenRequest → Except String GenResponse

/-- `getClient`: `apiKey || process.env.API_KEY`, throwing when the result is
falsy.  The App always passes its `apiKey` state string; `process.env.API_KEY`
may be undefined.  The constructed client itself is opaque (the oracle stands
for its `generateContent`), so success carries no data. -/
def getClient (apiKey : String) (envKey : Option String) : Except String Unit :=
  let key := if apiKey = "" then envKey.getD "" else apiKey
  if key = "" then
    .error "API Key is missing. Please provide it in the input field."
  else .ok ()

/-- The Planner prompt (template literal of `planTopic`). -/
def planPrompt (userQuery : String) : String :=
  "You are a Research Lead. The user wants to know about: \"" ++ userQuery ++ "\".\n      \n      Define a specific angle for this research.\n      Return ONLY the refined topic string. Do not add quotes or markdown.\n      \n      Example Input: \"Cars\"\n      Example Output: The transition from combustion engines to electric vehicles in 2025"

/-- The `generateContent` request issued by `planTopic`. -/
def planRequest (userQuery : String) : GenRequest :=
  { model := MODEL_NAME, contents := planPrompt userQuery, responseSchemaRequired := none }

/-- `planTopic`: client, generation call, then
`response.text?.trim() || userQuery`; the surrounding try/catch replaces any
thrown error with the fixed planning message. -/
def planTopic (gen : GenOracle) (userQuery : String) (apiKey : String)
    (envKey : Option String) : Except String String :=
  match
    ((match getClient apiKey envKey with
      | .error e => .error e
      | .ok _ =>
        match gen (planRequest userQuery) with
        | .error e => .error e
        | .ok r => .ok (jsOr ((r.text.map jsTrim).getD "") userQuery)) :
      Except String String)
  with
  | .ok t => .ok t
  | .error _ => .error "Could not plan the research topic. Check your API Key."

/-- `fetchMockSearch`: after a simulated delay, always resolves with the same
three documents, whose contents interpolate the refined topic.  It performs no
client or network call and has no failure path. -/
def fetchMockSearch (refinedTopic : String) : List SearchResult :=
  [ { source := "Academic Paper",
      content := "Recent studies show " ++ refinedTopic ++ " is accelerating due to GPU costs dropping by 40%." },
    { source := "Tech Blog",
      content := "Developers are complaining that " ++ refinedTopic ++ " is hard to debug, leading to a 20% slowdown in production." },
    { source := "Market Report",
      content := "Investors have poured $5B into " ++ refinedTopic ++ " related startups in Q4 2024." } ]

/-- The per-document `generateContent` request issued by `mapContent`. -/
def mapRequest (doc : SearchResult) : GenRequest :=
  { model := MODEL_NAME,
    contents := "Extract key facts from: " ++ doc.source ++ ": " ++ doc.content,
    responseSchemaRequired := none }

/-- `Promise.all(l.map f)`: results collected in input order; rejects iff any
member rejects. -/
def mapExcept {α β ε : Type} (f : α → Except ε β) : List α → Except ε (List β)
  | [] => .ok []
  | a :: as =>
    match f a with
    | .error e => .error e
    | .ok b =>
      match mapExcept f as with
      | .error e => .error e
      | .ok bs => .ok (b :: bs)

/-- `mapContent`: client, one concurrent call per document mapped to
`response.text || ""`, `Promise.all`, then `results.join("\n")`; the
try/catch replaces any thrown error with the fixed mapping message. -/
def mapContent (gen : GenOracle) (documents : List SearchResult) (apiKey : String)
    (envKey : Option String) : Except String String :=
  match
    ((match getClient apiKey envKey with
      | .error e => .error e
      | .ok _ =>
        match mapExcept (fun doc => (gen (mapRequest doc)).map (fun r => r.text.getD "")) documents with
        | .error e => .error e
        | .ok results => .ok (String.intercalate "\n" results)) :
      Except String String)
  with
  | .ok s => .ok s
  | .error _ => .error "Could not extract facts from sources."

/-- The Synthesizer prompt (template literal of `writeReport`). -/
def writePrompt (rawNotes : String) : String :=
  "You are a Technical Writer.\n      Synthesize the following raw notes into a structured report.\n      \n      RAW NOTES:\n      " ++ rawNotes ++ "\n      "

/-- The `generateContent` request issued by `writeReport`, carrying the
structured-output schema whose `required` list names all four report fields. -/
def writeRequest (rawNotes : String) : GenRequest :=
  { model := MODEL_NAME,
    contents := writePrompt rawNotes,
    responseSchemaRequired := some ["title", "summary", "key_points", "verdict"] }

/-- `writeReport`: client, schema-carrying generation call, throw on a falsy
`response.text`, then `JSON.parse(response.text) as ResearchReport`.  The cast
is unchecked, so the stage's value is the parsed `Json` itself — no local
validation of the four required fields happens; the try/catch replaces any
thrown error with the fixed writing message. -/
def writeReport (gen : GenOracle) (rawNotes : String) (apiKey : String)
    (envKey : Option String) : Except String Json :=
  match
    ((match getClient apiKey envKey with
      | .error e => .error e
      | .ok _ =>
        match gen (writeRequest rawNotes) with
        | .error e => .error e
        | .ok r =>
          match r.text with
          | none => .error "No response generated"
          | some t => if t = "" then .error "No response generated" else jsonParse t) :
      Except String Json)
  with
  | .ok j => .ok j
  | .error _ => .error "Could not write the final report."

/-! ### Orchestrator (src/App.tsx) -/

/-- The React state of `App`: `apiKey`, `query`, `step`, `refinedTopic`,
`report` (`ResearchReport | null`, at runtime the parsed JSON), and
`error` (`string | null`). -/
structure AppState where
  apiKey : String
  query : String
  step : AgentStep
  refinedTopic : String
  report : Option Json
  error : Option String

/-- The catch-all fallback message of `handleResearch`'s catch block. -/
def unexpectedErrMsg : String :=
  "An unexpected error occurred during the research process."

/-- `handleResearch`: guard on `!query.trim()`, reset the run-scoped fields,
then the four stages in sequence; any thrown error is caught, stored via
`setError(err.message || fallback)`, and the step becomes `error`.  The
returned list is the ordered sequence of `setStep` calls (the pipeline states
published to observers during the run). -/
def handleResearch (gen : GenOracle) (envKey : Option String) (s : AppState) :
    AppState × List AgentStep :=
  if jsTrim s.query = "" then (s, [])
  else
    let s1 : AppState :=
      { s with step := .planning, error := none, report := none, refinedTopic := "" }
    match planTopic gen s.query s.apiKey envKey with
    | .error m => ({ s1 with step := .error, error := some (jsOr m unexpectedErrMsg) },
                   [.planning, .error])
    | .ok plannedTopic =>
      let s2 : AppState := { s1 with refinedTopic := plannedTopic, step := .searching }
      let docs := fetchMockSearch plannedTopic
      let s3 : AppState := { s2 with step := .mapping }
      match mapContent gen docs s.apiKey envKey with
      | .error m => ({ s3 with step := .error, error := some (jsOr m unexpectedErrMsg) },
                     [.planning, .searching, .mapping, .error])
      | .ok notes =>
        let s4 : AppState := { s3 with step := .writing }
        match writeReport gen notes s.apiKey envKey with
        | .error m => ({ s4 with step := .error, error := some (jsOr m unexpectedErrMsg) },
                       [.planning, .searching, .mapping, .writing, .error])
        | .ok finalReport =>
          ({ s4 with report := some finalReport, step := .complete },
           [.planning, .searching, .mapping, .writing, .complete])

/-- The user-facing `run` entry point: the Initiate button and the Enter key
both invoke `handleResearch`, and both carry
`disabled={step !== 'idle' && step !== 'complete' && step !== 'error'}`
(App.tsx lines 126/131), so the click is delivered only in those states. -/
def initiateClick (gen : GenOracle) (envKey : Option String) (s : AppState) :
    AppState × List AgentStep :=
  if s.step = .idle ∨ s.step = .complete ∨ s.step = .error then
    handleResearch gen envKey s
  else (s, [])

/-- The "Reset System" button, rendered inside the error banner (shown
whenever `error` is truthy): its onClick performs only `setStep('idle')`. -/
def resetSystemClick (s : AppState) : AppState :=
  if optStrTruthy s.error then { s with step := .idle } else s

/-- JavaScript truthiness of the `report` field (`null` is falsy, otherwise
the parsed value's own truthiness). -/
def jsonOptTruthy : Option Json → Bool
  | none => false
  | some j => j.truthy

/-- The "Conduct New Research" button, rendered when
`step === 'complete' && report` is truthy: sets step idle and clears the
query, the report and the refined topic (not the error field). -/
def newResearchClick (s : AppState) : AppState :=
  if s.step = .complete ∧ jsonOptTruthy s.report then
    { s with step := .idle, query := "", report := none, refinedTopic := "" }
  else s

/-! ### Concrete scenario inputs used by witnesses and counterexamples -/

/-- An idle state with a credential and a non-empty query. -/
def idleSt : AppState :=
  { apiKey := "k", query := "Cars", step := .idle, refinedTopic := "",
    report := none, error := none }

/-- A state in the middle of a run. -/
def busySt : AppState :=
  { apiKey := "k", query := "Cars", step := .planning, refinedTopic := "t",
    report := none, error := none }

/-- A failed-run state: error message and a previously published topic. -/
def errSt : AppState :=
  { apiKey := "k", query := "Cars", step := .error, refinedTopic := "EV transition",
    report := none, error := some "Could not extract facts from sources." }

/-- A completed-run state with a truthy report. -/
def completeSt : AppState :=
  { apiKey := "k", query := "Cars", step := .complete, refinedTopic := "t",
    report := some (Json.str "r"), error := none }

/-- An idle state whose query is whitespace only. -/
def wsQuerySt : AppState :=
  { apiKey := "k", query := "   ", step := .idle, refinedTopic := "",
    report := none, error := none }

/-- An oracle that always resolves with the text "ok". -/
def genAllOk : GenOracle := fun _ => .ok ⟨some "ok"⟩

/-- An oracle whose every call rejects (a transport failure). -/
def genTransportFail : GenOracle := fun _ => .error "fetch failed: network unreachable"

/-- An oracle that resolves with text that is not valid JSON. -/
def genBadJson : GenOracle := fun _ => .ok ⟨some "not json"⟩

/-- A Synthesizer response: syntactically valid JSON missing the required
`verdict` field. -/
def ceWriterText : String :=
  lbraceC.toString ++
    "\"title\":\"The EV Shift\",\"summary\":\"S\",\"key_points\":[\"a\",\"b\"]" ++
    rbraceC.toString

/-- The JSON value `ceWriterText` parses to. -/
def ceReportJson : Json :=
  Json.obj [("title", Json.str "The EV Shift"), ("summary", Json.str "S"),
            ("key_points", Json.arr [Json.str "a", Json.str "b"])]

/-- An oracle answering the schema-carrying Synthesizer call with
`ceWriterText` and every other call with a plain topic. -/
def ceGen : GenOracle := fun req =>
  if req.responseSchemaRequired.isSome then .ok ⟨some ceWriterText⟩
  else .ok ⟨some "planned topic"⟩

/-- An oracle where planning succeeds and every other call rejects. -/
def genPlanOkMapFail : GenOracle := fun req =>
  if req.contents = planPrompt "Cars" then .ok ⟨some "T"⟩ else .error "boom"

/-- An oracle where planning resolves with whitespace-only text and every
other call rejects. -/
def genPlanEmpty : GenOracle := fun req =>
  if req.contents = planPrompt "Cars" then .ok ⟨some "   "⟩ else .error "halt"

/-- Two documents for exercising the extraction stage. -/
def wd1 : SearchResult := { source := "A", content := "a1" }

def wd2 : SearchResult := { source := "B", content := "b2" }

/-- Scripted responses for `wd1`/`wd2`: a text and an absent text. -/
def respOfC5 (d : SearchResult) : GenResponse :=
  if d = wd1 then ⟨some "T0"⟩ else ⟨none⟩

/-- An oracle realizing `respOfC5` on the extraction requests. -/
def genForC5 : GenOracle := fun req =>
  if req.contents = (mapRequest wd1).contents then .ok ⟨some "T0"⟩ else .ok ⟨none⟩

/-- The first document retrieved for the topic "X". -/
def ceDocX : SearchResult :=
  { source := "Academic Paper",
    content := "Recent studies show X is accelerating due to GPU costs dropping by 40%." }

/-! ### Helper lemmas -/

theorem mapExcept_ok {α β ε : Type} (f : α → Except ε β) (g : α → β) :
    ∀ l : List α, (∀ a ∈ l, f a = .ok (g a)) → mapExcept f l = .ok (l.map g) := by
  intro l
  induction l with
  | nil => intro _; rfl
  | cons x xs ih =>
    intro h
    have hx := h x (List.mem_cons_self x xs)
    have hxs := ih (fun a ha => h a (List.mem_cons_of_mem x ha))
    simp [mapExcept, hx, hxs]

theorem mapExcept_ok_forall {α β ε : Type} {f : α → Except ε β} :
    ∀ {l : List α} {bs : List β}, mapExcept f l = .ok bs → ∀ a ∈ l, ∃ b, f a = .ok b := by
  intro l
  induction l with
  | nil => intro bs _ a ha; cases ha
  | cons x xs ih =>
    intro bs h a ha
    rcases hfx : f x with e | b
    · simp [mapExcept, hfx] at h
    · rcases hrest : mapExcept f xs with e2 | bs2
      · simp [mapExcept, hfx, hrest] at h
      · rcases List.mem_cons.mp ha with rfl | hmem
        · exact ⟨b, hfx⟩
        · exact ih hrest a hmem

/-- If one per-document call rejects, the whole extraction stage yields the
fixed mapping message, whatever the other calls do. -/
theorem mapContent_fail_of_call_fail (gen : GenOracle) (apiKey : String)
    (envKey : Option String) (docs : List SearchResult) (d : SearchResult) (e : String)
    (hd : d ∈ docs) (hfail : gen (mapRequest d) = .error e) :
    mapContent gen docs apiKey envKey = .error "Could not extract facts from sources." := by
  rcases hgc : getClient apiKey envKey with ge | gu
  · simp [mapContent, hgc]
  · rcases hme : mapExcept (fun doc => (gen (mapRequest doc)).map (fun r => r.text.getD ""))
        docs with me | results
    · simp [mapContent, hgc, hme]
    · exfalso
      obtain ⟨b, hb⟩ := mapExcept_ok_forall hme d hd
      rw [hfail] at hb
      simp [Except.map] at hb

/-- The concatenation in the error branches of `handleResearch` is never the
empty string. -/
theorem jsOr_unexpected_ne_empty (m : String) : jsOr m unexpectedErrMsg ≠ "" := by
  unfold jsOr unexpectedErrMsg
  split
  · simp
  · assumption

/-- The only traces of `setStep` calls `handleResearch` can produce. -/
theorem handleResearch_trace (gen : GenOracle) (envKey : Option String) (s : AppState) :
    (handleResearch gen envKey s).2 = [] ∨
    (handleResearch gen envKey s).2 = [.planning, .error] ∨
    (handleResearch gen envKey s).2 = [.planning, .searching, .mapping, .error] ∨
    (handleResearch gen envKey s).2 = [.planning, .searching, .mapping, .writing, .error] ∨
    (handleResearch gen envKey s).2 =
      [.planning, .searching, .mapping, .writing, .complete] := by
  unfold handleResearch
  dsimp only
  split
  · exact Or.inl rfl
  · split
    · exact Or.inr (Or.inl rfl)
    · split
      · exact Or.inr (Or.inr (Or.inl rfl))
      · split
        · exact Or.inr (Or.inr (Or.inr (Or.inl rfl)))
        · exact Or.inr (Or.inr (Or.inr (Or.inr rfl)))

/-! ### Claim theorems -/

/-- Claim C1 counterexample: a Synthesizer response that is syntactically
valid JSON but misses the required `verdict` field does NOT make the writing
stage fail.  `writeReport` returns the parsed object (the unchecked cast
performs no field validation), the spec-shaped validator rejects that object,
and the full run publishes it to observers in state `complete`. -/
theorem c1_counterexample :
    writeReport ceGen "notes" "key" none = .ok ceReportJson ∧
    Json.getField ceReportJson "verdict" = none ∧
    reportOfJson ceReportJson = none ∧
    (handleResearch ceGen none idleSt).1.step = .complete ∧
    (handleResearch ceGen none idleSt).1.report = some ceReportJson :=
  ⟨rfl, rfl, rfl, rfl, rfl⟩

/-- Claim C1 (amended): the writing stage fails with the WritingError message
when the Synthesizer response text is absent, empty, or not syntactically
valid JSON; but any response that parses as JSON is returned as the report
unchanged — required-field absence is not detected locally. -/
theorem c1_amended_no_field_validation (gen : GenOracle) (rawNotes apiKey : String)
    (envKey : Option String)
    (hkey : getClient apiKey envKey = .ok ()) :
    (gen (writeRequest rawNotes) = .ok ⟨none⟩ →
        writeReport gen rawNotes apiKey envKey = .error "Could not write the final report.") ∧
    (gen (writeRequest rawNotes) = .ok ⟨some ""⟩ →
        writeReport gen rawNotes apiKey envKey = .error "Could not write the final report.") ∧
    (∀ txt, gen (writeRequest rawNotes) = .ok ⟨some txt⟩ → txt ≠ "" →
        (∀ j, jsonParse txt = .ok j → writeReport gen rawNotes apiKey envKey = .ok j) ∧
        (∀ e, jsonParse txt = .error e →
            writeReport gen rawNotes apiKey envKey =
              .error "Could not write the final report.")) := by
  refine ⟨?_, ?_, ?_⟩
  · intro hgen
    simp [writeReport, hkey, hgen]
  · intro hgen
    simp [writeReport, hkey, hgen]
  · intro txt hgen htxt
    constructor
    · intro j hj
      simp [writeReport, hkey, hgen, htxt, hj]
    · intro e he
      simp [writeReport, hkey, hgen, htxt, he]

/-- Claim C1 amended witness at the concrete verdict-less response. -/
theorem c1_amended_witness :
    writeReport ceGen "notes" "key" none = .ok ceReportJson :=
  ((c1_amended_no_field_validation ceGen "notes" "key" none rfl).2.2 ceWriterText rfl
    (by decide)).1 ceReportJson rfl

/-- Claim C2: when the pipeline is in any state other than idle, complete or
error, the run entry point (the Initiate button / Enter key, both disabled in
exactly those states) is a no-op: the state record is unchanged and no stage
runs (no `setStep` call happens). -/
theorem c2_run_noop_when_busy (gen : GenOracle) (envKey : Option String) (s : AppState)
    (h1 : s.step ≠ .idle) (h2 : s.step ≠ .complete) (h3 : s.step ≠ .error) :
    initiateClick gen envKey s = (s, []) := by
  simp [initiateClick, h1, h2, h3]

/-- Claim C2 witness: a click during `planning` is a no-op. -/
theorem c2_witness : initiateClick ceGen none busySt = (busySt, []) :=
  c2_run_noop_when_busy ceGen none busySt (by decide) (by decide) (by decide)

/-- Claim C3 counterexample: distinct underlying causes produce the same
user-facing message.  A missing credential and a transport failure both yield
the fixed planning message; a parse failure and a missing credential both
yield the fixed writing message. -/
theorem c3_counterexample :
    planTopic genAllOk "Cars" "" none =
      .error "Could not plan the research topic. Check your API Key." ∧
    planTopic genTransportFail "Cars" "valid-key" none =
      .error "Could not plan the research topic. Check your API Key." ∧
    writeReport genBadJson "notes" "valid-key" none =
      .error "Could not write the final report." ∧
    writeReport genTransportFail "notes" "" none =
      .error "Could not write the final report." :=
  ⟨rfl, rfl, rfl, rfl⟩

/-- Claim C3 (amended): every stage failure surfaces that stage's fixed
message — the three stage messages are pairwise distinct, so the user can tell
WHICH stage failed, but within a stage the message does not distinguish a
missing credential from a transport failure from a parse failure. -/
theorem c3_amended_stage_specific_messages :
    (∀ (gen : GenOracle) (q apiKey : String) (envKey : Option String) (e : String),
        planTopic gen q apiKey envKey = .error e →
        e = "Could not plan the research topic. Check your API Key.") ∧
    (∀ (gen : GenOracle) (docs : List SearchResult) (apiKey : String)
        (envKey : Option String) (e : String),
        mapContent gen docs apiKey envKey = .error e →
        e = "Could not extract facts from sources.") ∧
    (∀ (gen : GenOracle) (rawNotes apiKey : String) (envKey : Option String) (e : String),
        writeReport gen rawNotes apiKey envKey = .error e →
        e = "Could not write the final report.") ∧
    ("Could not plan the research topic. Check your API Key." ≠
      "Could not extract facts from sources.") ∧
    ("Could not plan the research topic. Check your API Key." ≠
      "Could not write the final report.") ∧
    ("Could not extract facts from sources." ≠ "Could not write the final report.") := by
  refine ⟨?_, ?_, ?_, by decide, by decide, by decide⟩
  · intro gen q apiKey envKey e h
    unfold planTopic at h
    split at h
    · exact Except.noConfusion h
    · injection h with h'; exact h'.symm
  · intro gen docs apiKey envKey e h
    unfold mapContent at h
    split at h
    · exact Except.noConfusion h
    · injection h with h'; exact h'.symm
  · intro gen rawNotes apiKey envKey e h
    unfold writeReport at h
    split at h
    · exact Except.noConfusion h
    · injection h with h'; exact h'.symm

/-- Claim C3 amended witness: a transport failure during planning surfaces
the fixed planning message. -/
theorem c3_amended_witness :
    ∃ m, planTopic genTransportFail "Cars" "k" none = .error m ∧
      m = "Could not plan the research topic. Check your API Key." := by
  refine ⟨"Could not plan the research topic. Check your API Key.", rfl, ?_⟩
  exact c3_amended_stage_specific_messages.1 genTransportFail "Cars" "k" none _ rfl

/-- Claim C4 counterexample: invoking reset from the `error` state (the
"Reset System" button) returns the step to `idle` but does NOT clear the
run-scoped data — the error message and the refined topic are still present
afterwards. -/
theorem c4_counterexample :
    (resetSystemClick errSt).step = .idle ∧
    (resetSystemClick errSt).error = some "Could not extract facts from sources." ∧
    (resetSystemClick errSt).refinedTopic = "EV transition" :=
  ⟨rfl, rfl, rfl⟩

/-- Claim C4 (amended): reset from `complete` (the "Conduct New Research"
button) returns to `idle` and clears the query, report and refined topic,
the error field being untouched but already absent in any state a run
completes in; reset from `error` (the "Reset System" button) only returns the
step to `idle`, leaving the error message and all other fields unchanged. -/
theorem c4_amended_reset_behaviour :
    (∀ s : AppState, s.step = .complete → jsonOptTruthy s.report →
        newResearchClick s =
          { s with step := .idle, query := "", report := none, refinedTopic := "" }) ∧
    (∀ s : AppState, optStrTruthy s.error →
        resetSystemClick s = { s with step := .idle }) ∧
    (∀ (gen : GenOracle) (envKey : Option String) (s : AppState),
        (handleResearch gen envKey s).1.step = .complete →
        (handleResearch gen envKey s).1.error = s.error ∨
        (handleResearch gen envKey s).1.error = none) := by
  refine ⟨?_, ?_, ?_⟩
  · intro s h1 h2
    simp [newResearchClick, h1, h2]
  · intro s h
    simp [resetSystemClick, h]
  · intro gen envKey s hc
    by_cases hq : jsTrim s.query = ""
    · simp [handleResearch, if_pos hq] at hc ⊢
    · rcases hplan : planTopic gen s.query s.apiKey envKey with m | t
      · simp [handleResearch, if_neg hq, hplan] at hc
      · rcases hmc : mapContent gen (fetchMockSearch t) s.apiKey envKey with m | notes
        · simp [handleResearch, if_neg hq, hplan, hmc] at hc
        · rcases hwr : writeReport gen notes s.apiKey envKey with m | rep
          · simp [handleResearch, if_neg hq, hplan, hmc, hwr] at hc
          · refine Or.inr ?_
            simp [handleResearch, if_neg hq, hplan, hmc, hwr]

/-- Claim C4 amended witness at the concrete states. -/
theorem c4_witness :
    newResearchClick completeSt =
      { completeSt with step := .idle, query := "", report := none, refinedTopic := "" } ∧
    resetSystemClick errSt = { errSt with step := .idle } :=
  ⟨c4_amended_reset_behaviour.1 completeSt rfl rfl,
   c4_amended_reset_behaviour.2.1 errSt rfl⟩

/-- Claim C5: with every per-document extraction call resolving, the
extraction stage returns the per-document texts (empty string standing for an
absent response text) joined by newlines in input-document order; in
particular, the empty document list yields the empty notes blob.  The shallow
embedding fixes `Promise.all`'s by-index collection, so the result is a
function of the input order alone, independent of call completion order. -/
theorem c5_notes_order_and_empty (gen : GenOracle) (apiKey : String)
    (envKey : Option String) (respOf : SearchResult → GenResponse)
    (docs : List SearchResult)
    (hkey : getClient apiKey envKey = .ok ())
    (hcalls : ∀ d ∈ docs, gen (mapRequest d) = .ok (respOf d)) :
    mapContent gen docs apiKey envKey =
      .ok (String.intercalate "\n" (docs.map fun d => (respOf d).text.getD "")) := by
  have h := mapExcept_ok (fun doc => (gen (mapRequest doc)).map (fun r => r.text.getD ""))
      (fun d => (respOf d).text.getD "") docs
      (fun a ha => by dsimp only; rw [hcalls a ha]; rfl)
  simp [mapContent, hkey, h]

/-- Claim C5 witness: two documents (one response text present, one absent)
joined in order, and the zero-document case. -/
theorem c5_witness :
    mapContent genForC5 [wd1, wd2] "k" none = .ok ("T0" ++ "\n" ++ "") ∧
    mapContent genForC5 ([] : List SearchResult) "k" none = .ok "" := by
  constructor
  · exact (c5_notes_order_and_empty genForC5 "k" none respOfC5 [wd1, wd2] rfl
      (by intro d hd; fin_cases hd <;> rfl)).trans (by rfl)
  · exact (c5_notes_order_and_empty genForC5 "k" none respOfC5 [] rfl
      (by intro d hd; cases hd)).trans (by rfl)

/-- Claim C6: if any single per-document extraction call rejects, the whole
stage fails with the fixed MappingError message (whatever the other calls
return), and in the pipeline the run transitions to `error` with no report
and without ever entering `writing` — no notes blob survives. -/
theorem c6_single_failure_aborts :
    (∀ (gen : GenOracle) (apiKey : String) (envKey : Option String)
        (docs : List SearchResult) (d : SearchResult) (e : String), d ∈ docs →
        gen (mapRequest d) = .error e →
        mapContent gen docs apiKey envKey = .error "Could not extract facts from sources.") ∧
    (∀ (gen : GenOracle) (envKey : Option String) (s : AppState) (t : String),
        jsTrim s.query ≠ "" →
        planTopic gen s.query s.apiKey envKey = .ok t →
        (∃ d ∈ fetchMockSearch t, ∃ e, gen (mapRequest d) = .error e) →
        (handleResearch gen envKey s).1.step = .error ∧
        (handleResearch gen envKey s).1.report = none ∧
        (handleResearch gen envKey s).2 = [.planning, .searching, .mapping, .error]) := by
  constructor
  · intro gen apiKey envKey docs d e hd hfail
    exact mapContent_fail_of_call_fail gen apiKey envKey docs d e hd hfail
  · rintro gen envKey s t hq hplan ⟨d, hd, e, hfail⟩
    have hmc := mapContent_fail_of_call_fail gen s.apiKey envKey (fetchMockSearch t) d e hd hfail
    simp [handleResearch, if_neg hq, hplan, hmc]

set_option maxRecDepth 8000 in
/-- Claim C6 witness: planning succeeds, every extraction call rejects; the
run errors after `mapping` with no report. -/
theorem c6_witness :
    (handleResearch genPlanOkMapFail none idleSt).1.step = .error ∧
    (handleResearch genPlanOkMapFail none idleSt).1.report = none ∧
    (handleResearch genPlanOkMapFail none idleSt).2 =
      [.planning, .searching, .mapping, .error] :=
  c6_single_failure_aborts.2 genPlanOkMapFail none idleSt "T" (by decide) rfl
    ⟨{ source := "Academic Paper",
       content := "Recent studies show T is accelerating due to GPU costs dropping by 40%." },
     by decide, "boom", rfl⟩

/-- Claim C7: when the Planner's generation call succeeds, an
empty/whitespace-only (or absent) response text makes `planTopic` return the
original query unchanged, a non-blank text is returned trimmed, and in the
empty-text case the run does not fail at planning: `searching` is entered and
the published refined topic is the query itself. -/
theorem c7_planner_fallback :
    (∀ (gen : GenOracle) (q apiKey : String) (envKey : Option String) (r : GenResponse),
        getClient apiKey envKey = .ok () → gen (planRequest q) = .ok r →
        (((r.text.map jsTrim).getD "" = "") → planTopic gen q apiKey envKey = .ok q) ∧
        (∀ t, r.text = some t → jsTrim t ≠ "" →
            planTopic gen q apiKey envKey = .ok (jsTrim t))) ∧
    (∀ (gen : GenOracle) (envKey : Option String) (s : AppState) (r : GenResponse),
        jsTrim s.query ≠ "" →
        getClient s.apiKey envKey = .ok () →
        gen (planRequest s.query) = .ok r → (r.text.map jsTrim).getD "" = "" →
        AgentStep.searching ∈ (handleResearch gen envKey s).2 ∧
        (handleResearch gen envKey s).1.refinedTopic = s.query) := by
  constructor
  · intro gen q apiKey envKey r hkey hgen
    constructor
    · intro hempty
      simp [planTopic, hkey, hgen, jsOr, hempty]
    · intro t ht htne
      simp [planTopic, hkey, hgen, ht, jsOr, htne]
  · intro gen envKey s r hq hkey hgen hempty
    have hplan : planTopic gen s.query s.apiKey envKey = .ok s.query := by
      simp [planTopic, hkey, hgen, jsOr, hempty]
    rcases hmc : mapContent gen (fetchMockSearch s.query) s.apiKey envKey with m | notes
    · simp [handleResearch, if_neg hq, hplan, hmc]
    · rcases hwr : writeReport gen notes s.apiKey envKey with m | rep
      · simp [handleResearch, if_neg hq, hplan, hmc, hwr]
      · simp [handleResearch, if_neg hq, hplan, hmc, hwr]

set_option maxRecDepth 8000 in
/-- Claim C7 witness: a whitespace-only planner response falls back to the
query "Cars" and the run still enters `searching`. -/
theorem c7_witness :
    planTopic genPlanEmpty "Cars" "k" none = .ok "Cars" ∧
    AgentStep.searching ∈ (handleResearch genPlanEmpty none idleSt).2 := by
  constructor
  · exact (c7_planner_fallback.1 genPlanEmpty "Cars" "k" none ⟨some "   "⟩ rfl rfl).1
      (by decide)
  · exact (c7_planner_fallback.2 genPlanEmpty none idleSt ⟨some "   "⟩ (by decide) rfl rfl
      (by decide)).1

/-- Claim C8: on any failing run (non-blank query), the transition to `error`
publishes a non-empty human-readable message, and whatever refined topic the
Planner had already published stays published unchanged. -/
theorem c8_failure_preserves_published (gen : GenOracle) (envKey : Option String)
    (s : AppState) (hq : jsTrim s.query ≠ "") :
    ((handleResearch gen envKey s).1.step = .error →
        ∃ m, (handleResearch gen envKey s).1.error = some m ∧ m ≠ "") ∧
    (∀ t, planTopic gen s.query s.apiKey envKey = .ok t →
        (handleResearch gen envKey s).1.refinedTopic = t) := by
  rcases hplan : planTopic gen s.query s.apiKey envKey with m | t
  · constructor
    · intro _
      refine ⟨jsOr m unexpectedErrMsg, ?_, jsOr_unexpected_ne_empty m⟩
      simp [handleResearch, if_neg hq, hplan]
    · intro t ht
      exact Except.noConfusion ht
  · rcases hmc : mapContent gen (fetchMockSearch t) s.apiKey envKey with m | notes
    · constructor
      · intro _
        refine ⟨jsOr m unexpectedErrMsg, ?_, jsOr_unexpected_ne_empty m⟩
        simp [handleResearch, if_neg hq, hplan, hmc]
      · intro t' ht
        injection ht with h'
        subst h'
        simp [handleResearch, if_neg hq, hplan, hmc]
    · rcases hwr : writeReport gen notes s.apiKey envKey with m | rep
      · constructor
        · intro _
          refine ⟨jsOr m unexpectedErrMsg, ?_, jsOr_unexpected_ne_empty m⟩
          simp [handleResearch, if_neg hq, hplan, hmc, hwr]
        · intro t' ht
          injection ht with h'
          subst h'
          simp [handleResearch, if_neg hq, hplan, hmc, hwr]
      · constructor
        · intro hstep
          exfalso
          simp [handleResearch, if_neg hq, hplan, hmc, hwr] at hstep
        · intro t' ht
          injection ht with h'
          subst h'
          simp [handleResearch, if_neg hq, hplan, hmc, hwr]

set_option maxRecDepth 8000 in
/-- Claim C8 witness: a run failing at extraction keeps the published topic
"T" and surfaces a non-empty message. -/
theorem c8_witness :
    (∃ m, (handleResearch genPlanOkMapFail none idleSt).1.error = some m ∧ m ≠ "") ∧
    (handleResearch genPlanOkMapFail none idleSt).1.refinedTopic = "T" :=
  ⟨(c8_failure_preserves_published genPlanOkMapFail none idleSt (by decide)).1 rfl,
   (c8_failure_preserves_published genPlanOkMapFail none idleSt (by decide)).2 "T" rfl⟩

/-- Claim C9: a query that is empty or whitespace-only makes the run entry
point a no-op — the state record is returned unchanged and no pipeline state
is ever published. -/
theorem c9_empty_query_noop (gen : GenOracle) (envKey : Option String) (s : AppState)
    (hq : jsTrim s.query = "") :
    initiateClick gen envKey s = (s, []) := by
  simp [initiateClick, handleResearch, hq]

/-- Claim C9 witness at a whitespace query. -/
theorem c9_witness : initiateClick genAllOk none wsQuerySt = (wsQuerySt, []) :=
  c9_empty_query_noop genAllOk none wsQuerySt (by decide)

/-- Claim C10: the retrieval stage is a total function that always returns
exactly the three fixed-label documents, each embedding the refined topic in
its content; consequently a trace that reaches `searching` always reaches
`mapping` — `searching` never transitions to `error`. -/
theorem c10_retrieval_never_fails :
    (∀ t, (fetchMockSearch t).map SearchResult.source =
        ["Academic Paper", "Tech Blog", "Market Report"]) ∧
    (∀ t, ∀ d ∈ fetchMockSearch t, ∃ a b, d.content = a ++ t ++ b) ∧
    (∀ (gen : GenOracle) (envKey : Option String) (s : AppState),
        AgentStep.searching ∈ (handleResearch gen envKey s).2 →
        AgentStep.mapping ∈ (handleResearch gen envKey s).2) := by
  refine ⟨fun t => rfl, ?_, ?_⟩
  · intro t d hd
    fin_cases hd
    · exact ⟨"Recent studies show ",
        " is accelerating due to GPU costs dropping by 40%.", rfl⟩
    · exact ⟨"Developers are complaining that ",
        " is hard to debug, leading to a 20% slowdown in production.", rfl⟩
    · exact ⟨"Investors have poured $5B into ", " related startups in Q4 2024.", rfl⟩
  · intro gen envKey s hs
    rcases handleResearch_trace gen envKey s with h | h | h | h | h <;>
      rw [h] at hs ⊢ <;> revert hs <;> decide

/-- Claim C10 witness: the first retrieved document for topic "X" embeds "X",
and a run of `handleResearch` whose trace contains `searching` also contains
`mapping`. -/
theorem c10_witness :
    (∃ a b, ceDocX.content = a ++ "X" ++ b) ∧
    AgentStep.mapping ∈ (handleResearch genAllOk none idleSt).2 :=
  ⟨c10_retrieval_never_fails.2.1 "X" ceDocX (by decide),
   c10_retrieval_never_fails.2.2 genAllOk none idleSt (by decide)⟩

end ResearchArchive
